import Mathlib

/-!
Shallow embedding of the Express handlers in src/functions/index.js of the
Serverless_Backend-Demo repository.

External effects (the Google Secret Manager fetch and the two Replicate API
operations) are modelled as fields of an environment record: each field holds
the outcome that the external call would produce, either a value or a thrown
message.  Every handler returns the HTTP status code it sets, the JSON body it
sends, and the trace of outbound calls it performed during the request, so
that properties such as "no remote call is attempted" are stated on the trace.
JSON bodies are modelled structurally: a field that the code conditionally
sets is an Option, so that presence and absence of the field are observable.
-/

namespace VideoRelay

/-- The input map sent to the remote create-prediction operation:
the object literal at lines 55-59 of index.js. -/
structure PredictionInput where
  prompt : String
  image : String
  resolution : String
deriving DecidableEq, Repr

/-- The full argument of replicate.predictions.create: model plus input. -/
structure PredictionRequest where
  model : String
  input : PredictionInput
deriving DecidableEq, Repr

/-- A remote prediction record as read by checkVideoStatus (lines 82-90):
the fields the code copies, plus output and the remote error text. -/
structure Prediction where
  id : String
  status : String
  created_at : Option String
  started_at : Option String
  completed_at : Option String
  model : String
  version : String
  output : String
  error : String
deriving DecidableEq, Repr

/-- One outbound call made while handling a request. -/
inductive Call where
  | secretFetch
  | createPrediction (req : PredictionRequest)
  | getPrediction (taskId : String)
deriving DecidableEq, Repr

/-- The external world: the outcome of the secret fetch and of each remote
operation.  An Except.error value models the call throwing with that
message. -/
structure Env where
  accessSecretVersion : Except String String
  predictionsCreate : PredictionRequest → Except String Prediction
  predictionsGet : String → Except String Prediction

/-- The CONFIG object of index.js (lines 23-29). -/
structure Config where
  PROJECT_ID : String
  SECRET_NAME : String
  DEFAULT_RESOLUTION : String
  DEFAULT_MODEL : String
deriving DecidableEq, Repr

/-- The concrete CONFIG values of index.js. -/
def CONFIG : Config :=
  { PROJECT_ID := "YOUR_PROJECT_NUMBER"
    SECRET_NAME := "Replicate_APIKey"
    DEFAULT_RESOLUTION := "480p"
    DEFAULT_MODEL := "bytedance/seedance-1-lite" }

/-- getReplicateApiKey (lines 35-39): one secret-store access returning the
key, or throwing. -/
def getReplicateApiKey (env : Env) : Except String String :=
  env.accessSecretVersion

/-- The request object built by createVideoGeneration (lines 53-60): the
model is always CONFIG.DEFAULT_MODEL; a missing resolution argument falls
back to CONFIG.DEFAULT_RESOLUTION via the JS default parameter. -/
def requestOf (prompt imageUrl : String) (resolution : Option String) :
    PredictionRequest :=
  { model := CONFIG.DEFAULT_MODEL
    input :=
      { prompt := prompt
        image := imageUrl
        resolution := resolution.getD CONFIG.DEFAULT_RESOLUTION } }

/-- createVideoGeneration (lines 48-68): fetch the key, create the
prediction, return its id; any thrown error is rethrown.  The second
component is the trace of outbound calls performed. -/
def createVideoGeneration (env : Env) (prompt imageUrl : String)
    (resolution : Option String) : Except String String × List Call :=
  match getReplicateApiKey env with
  | .error e => (.error e, [Call.secretFetch])
  | .ok _ =>
    let req := requestOf prompt imageUrl resolution
    match env.predictionsCreate req with
    | .error e => (.error e, [Call.secretFetch, Call.createPrediction req])
    | .ok prediction =>
        (.ok prediction.id, [Call.secretFetch, Call.createPrediction req])

/-- The response object assembled by checkVideoStatus: the seven fields
always copied from the prediction (lines 82-90), and the two conditional
fields, absent unless set. -/
structure StatusResponse where
  taskId : String
  status : String
  created_at : Option String
  started_at : Option String
  completed_at : Option String
  model : String
  version : String
  output_url : Option String
  error : Option String
deriving DecidableEq, Repr

/-- checkVideoStatus (lines 75-105): fetch the key, get the prediction,
copy its fields, then set output_url when the status is succeeded and
error when it is failed; otherwise return the bare record. -/
def checkVideoStatus (env : Env) (taskId : String) :
    Except String StatusResponse × List Call :=
  match getReplicateApiKey env with
  | .error e => (.error e, [Call.secretFetch])
  | .ok _ =>
    match env.predictionsGet taskId with
    | .error e => (.error e, [Call.secretFetch, Call.getPrediction taskId])
    | .ok prediction =>
      let response : StatusResponse :=
        { taskId := prediction.id
          status := prediction.status
          created_at := prediction.created_at
          started_at := prediction.started_at
          completed_at := prediction.completed_at
          model := prediction.model
          version := prediction.version
          output_url := none
          error := none }
      if prediction.status = "succeeded" then
        (.ok { response with output_url := some prediction.output },
         [Call.secretFetch, Call.getPrediction taskId])
      else if prediction.status = "failed" then
        (.ok { response with error := some prediction.error },
         [Call.secretFetch, Call.getPrediction taskId])
      else
        (.ok response, [Call.secretFetch, Call.getPrediction taskId])

/-- A query-string value: absent, or present with a string value.  Express
gives an empty string for a parameter supplied without a value. -/
def isMissing : Option String → Bool
  | none => true
  | some s => s == ""

/-- The query parameters read by the createVideo handler (line 121). -/
structure CreateVideoQuery where
  prompt : Option String
  imageUrl : Option String
  resolution : Option String
deriving DecidableEq, Repr

/-- The query parameter read by the checkStatus handler (line 154). -/
structure CheckStatusQuery where
  taskId : Option String
deriving DecidableEq, Repr

/-- What one handler sends back: HTTP status, JSON body, and the trace of
outbound calls made while producing it. -/
structure HandlerResult (β : Type) where
  status : Nat
  body : β
  calls : List Call
deriving DecidableEq, Repr

/-- The three body shapes the createVideo handler can send: the 200 body
of lines 132-136, the 400 body of lines 124-126, and the 500 body of
lines 139-142. -/
inductive CreateVideoBody where
  | okBody (taskId status message : String)
  | errBody (error : String)
  | errDetailsBody (error details : String)
deriving DecidableEq, Repr

/-- The three body shapes the checkStatus handler can send: the relayed
StatusResponse, the 400 body, and the 500 body. -/
inductive CheckStatusBody where
  | okBody (s : StatusResponse)
  | errBody (error : String)
  | errDetailsBody (error details : String)
deriving DecidableEq, Repr

/-- The handler of GET /api/createVideo (lines 119-144). -/
def apiCreateVideo (env : Env) (q : CreateVideoQuery) :
    HandlerResult CreateVideoBody :=
  if isMissing q.prompt || isMissing q.imageUrl then
    { status := 400
      body := .errBody "Missing required parameters: prompt and imageUrl"
      calls := [] }
  else
    match createVideoGeneration env (q.prompt.getD "") (q.imageUrl.getD "")
        q.resolution with
    | (.ok taskId, calls) =>
      { status := 200
        body := .okBody taskId "started"
          "Video generation task created successfully"
        calls := calls }
    | (.error e, calls) =>
      { status := 500
        body := .errDetailsBody "Failed to create video generation task" e
        calls := calls }

/-- The handler of GET /api/checkStatus (lines 152-172). -/
def apiCheckStatus (env : Env) (q : CheckStatusQuery) :
    HandlerResult CheckStatusBody :=
  if isMissing q.taskId then
    { status := 400
      body := .errBody "Missing required parameter: taskId"
      calls := [] }
  else
    match checkVideoStatus env (q.taskId.getD "") with
    | (.ok s, calls) =>
      { status := 200, body := .okBody s, calls := calls }
    | (.error e, calls) =>
      { status := 500
        body := .errDetailsBody "Failed to check video status" e
        calls := calls }

/-- The fixed body sent by GET /api/test (lines 180-185). -/
structure TestBody where
  taskId : String
  status : String
  output_url : String
  message : String
deriving DecidableEq, Repr

/-- The handler of GET /api/test (lines 178-193): ignores the environment
and every query parameter and returns the hardcoded mock payload. -/
def apiTest (_env : Env) (_query : List (String × String)) :
    HandlerResult TestBody :=
  { status := 200
    body :=
      { taskId := "test-1116"
        status := "succeeded"
        output_url :=
          "https://commondatastorage.googleapis.com/gtv-videos-bucket/sample/ForBiggerBlazes.mp4"
        message := "This is a test response" }
    calls := [] }

/-- The error field of a createVideo response body, when present. -/
def CreateVideoBody.errorField : CreateVideoBody → Option String
  | .okBody _ _ _ => none
  | .errBody e => some e
  | .errDetailsBody e _ => some e

/-- The details field of a createVideo response body, when present. -/
def CreateVideoBody.detailsField : CreateVideoBody → Option String
  | .errDetailsBody _ d => some d
  | _ => none

/-- The error field of a checkStatus response body, when present: a relayed
status record carries one exactly when its error component is set. -/
def CheckStatusBody.errorField : CheckStatusBody → Option String
  | .okBody s => s.error
  | .errBody e => some e
  | .errDetailsBody e _ => some e

/-- The output_url field of a checkStatus response body, when present. -/
def CheckStatusBody.output_urlField : CheckStatusBody → Option String
  | .okBody s => s.output_url
  | _ => none

/-- The details field of a checkStatus response body, when present. -/
def CheckStatusBody.detailsField : CheckStatusBody → Option String
  | .errDetailsBody _ d => some d
  | _ => none

/-- The relayed status record of a checkStatus response body, when the
body is one. -/
def CheckStatusBody.statusRecord : CheckStatusBody → Option StatusResponse
  | .okBody s => some s
  | _ => none

/-! Concrete fixtures used by the witness theorems. -/

/-- A sample succeeded remote prediction record. -/
def predSucceededW : Prediction :=
  { id := "p-1"
    status := "succeeded"
    created_at := some "2025-02-02T10:00:00.000Z"
    started_at := some "2025-02-02T10:00:05.000Z"
    completed_at := some "2025-02-02T10:02:30.000Z"
    model := "bytedance/seedance-1-lite"
    version := "v1"
    output := "https://replicate.delivery/pbxt/video.mp4"
    error := "" }

/-- A sample failed remote prediction record. -/
def predFailedW : Prediction :=
  { predSucceededW with status := "failed", error := "NSFW content detected" }

/-- A sample in-progress remote prediction record. -/
def predProcessingW : Prediction :=
  { predSucceededW with status := "processing" }

/-- An environment in which every external call succeeds and the remote
record is the succeeded one. -/
def envOkW : Env :=
  { accessSecretVersion := .ok "r8-key"
    predictionsCreate := fun _ => .ok predSucceededW
    predictionsGet := fun _ => .ok predSucceededW }

/-- As envOkW, but get-prediction returns the failed record. -/
def envFailedW : Env :=
  { envOkW with predictionsGet := fun _ => .ok predFailedW }

/-- As envOkW, but get-prediction returns the in-progress record. -/
def envProcessingW : Env :=
  { envOkW with predictionsGet := fun _ => .ok predProcessingW }

/-- An environment in which the secret fetch throws. -/
def envSecretDownW : Env :=
  { accessSecretVersion := .error "7 PERMISSION_DENIED"
    predictionsCreate := fun _ => .error "7 PERMISSION_DENIED"
    predictionsGet := fun _ => .error "7 PERMISSION_DENIED" }

/-! The claims. -/

/-- C1: for every request to /api/createVideo in which prompt or imageUrl
is missing or empty, and for every request to /api/checkStatus in which
taskId is missing or empty, the response is HTTP 400 with an error field
and no secret fetch or remote API call is made. -/
theorem C1_missing_params_400_no_calls (env : Env)
    (q : CreateVideoQuery) (q' : CheckStatusQuery)
    (hq : (isMissing q.prompt || isMissing q.imageUrl) = true)
    (hq' : isMissing q'.taskId = true) :
    ((apiCreateVideo env q).status = 400 ∧
      ((apiCreateVideo env q).body).errorField.isSome = true ∧
      (apiCreateVideo env q).calls = []) ∧
    ((apiCheckStatus env q').status = 400 ∧
      ((apiCheckStatus env q').body).errorField.isSome = true ∧
      (apiCheckStatus env q').calls = []) := by
  constructor
  · simp [apiCreateVideo, hq, CreateVideoBody.errorField]
  · simp [apiCheckStatus, hq', CheckStatusBody.errorField]

/-- Witness for C1 at a request with no prompt and an empty imageUrl, and
a request with no taskId. -/
theorem C1_missing_params_400_no_calls_witness :
    ((isMissing (none : Option String) || isMissing (some "")) = true) ∧
    (isMissing (none : Option String) = true) ∧
    (((apiCreateVideo envOkW
        { prompt := none, imageUrl := some "", resolution := none }).status = 400 ∧
      ((apiCreateVideo envOkW
        { prompt := none, imageUrl := some "", resolution := none }).body).errorField.isSome = true ∧
      (apiCreateVideo envOkW
        { prompt := none, imageUrl := some "", resolution := none }).calls = []) ∧
     ((apiCheckStatus envOkW { taskId := none }).status = 400 ∧
      ((apiCheckStatus envOkW { taskId := none }).body).errorField.isSome = true ∧
      (apiCheckStatus envOkW { taskId := none }).calls = [])) :=
  ⟨by decide, by decide,
    C1_missing_params_400_no_calls envOkW
      { prompt := none, imageUrl := some "", resolution := none }
      { taskId := none } (by decide) (by decide)⟩

/-- C2: for every remote prediction record with status succeeded, the
checkStatus response includes an output_url field equal to the remote
record output field and does not include an error field. -/
theorem C2_succeeded_has_output_url_no_error (env : Env)
    (q : CheckStatusQuery) (key : String) (pred : Prediction)
    (hm : isMissing q.taskId = false)
    (hk : env.accessSecretVersion = .ok key)
    (hp : env.predictionsGet (q.taskId.getD "") = .ok pred)
    (hs : pred.status = "succeeded") :
    (apiCheckStatus env q).status = 200 ∧
    ((apiCheckStatus env q).body).output_urlField = some pred.output ∧
    ((apiCheckStatus env q).body).errorField = none := by
  simp [apiCheckStatus, hm, checkVideoStatus, getReplicateApiKey, hk, hp, hs,
    CheckStatusBody.output_urlField, CheckStatusBody.errorField]

/-- Witness for C2 at the succeeded fixture. -/
theorem C2_succeeded_has_output_url_no_error_witness :
    (apiCheckStatus envOkW { taskId := some "p-1" }).status = 200 ∧
    ((apiCheckStatus envOkW { taskId := some "p-1" }).body).output_urlField =
      some predSucceededW.output ∧
    ((apiCheckStatus envOkW { taskId := some "p-1" }).body).errorField = none :=
  C2_succeeded_has_output_url_no_error envOkW { taskId := some "p-1" }
    "r8-key" predSucceededW (by decide) rfl rfl rfl

/-- C3: for every remote prediction record with status failed, the
checkStatus response has HTTP status 200, includes an error field equal
to the remote record error field, and has no output_url field. -/
theorem C3_failed_is_200_with_error_no_output (env : Env)
    (q : CheckStatusQuery) (key : String) (pred : Prediction)
    (hm : isMissing q.taskId = false)
    (hk : env.accessSecretVersion = .ok key)
    (hp : env.predictionsGet (q.taskId.getD "") = .ok pred)
    (hs : pred.status = "failed") :
    (apiCheckStatus env q).status = 200 ∧
    ((apiCheckStatus env q).body).errorField = some pred.error ∧
    ((apiCheckStatus env q).body).output_urlField = none := by
  simp [apiCheckStatus, hm, checkVideoStatus, getReplicateApiKey, hk, hp, hs,
    CheckStatusBody.output_urlField, CheckStatusBody.errorField]

/-- Witness for C3 at the failed fixture. -/
theorem C3_failed_is_200_with_error_no_output_witness :
    (apiCheckStatus envFailedW { taskId := some "p-1" }).status = 200 ∧
    ((apiCheckStatus envFailedW { taskId := some "p-1" }).body).errorField =
      some predFailedW.error ∧
    ((apiCheckStatus envFailedW { taskId := some "p-1" }).body).output_urlField =
      none :=
  C3_failed_is_200_with_error_no_output envFailedW { taskId := some "p-1" }
    "r8-key" predFailedW (by decide) rfl rfl rfl

/-- C4: for every remote prediction record whose status is neither
succeeded nor failed, the checkStatus response contains neither an
output_url field nor an error field. -/
theorem C4_other_status_no_output_no_error (env : Env)
    (q : CheckStatusQuery) (key : String) (pred : Prediction)
    (hm : isMissing q.taskId = false)
    (hk : env.accessSecretVersion = .ok key)
    (hp : env.predictionsGet (q.taskId.getD "") = .ok pred)
    (hs1 : pred.status ≠ "succeeded")
    (hs2 : pred.status ≠ "failed") :
    ((apiCheckStatus env q).body).output_urlField = none ∧
    ((apiCheckStatus env q).body).errorField = none := by
  simp [apiCheckStatus, hm, checkVideoStatus, getReplicateApiKey, hk, hp,
    hs1, hs2, CheckStatusBody.output_urlField, CheckStatusBody.errorField]

/-- Witness for C4 at the processing fixture. -/
theorem C4_other_status_no_output_no_error_witness :
    ((apiCheckStatus envProcessingW { taskId := some "p-1" }).body).output_urlField =
      none ∧
    ((apiCheckStatus envProcessingW { taskId := some "p-1" }).body).errorField =
      none :=
  C4_other_status_no_output_no_error envProcessingW { taskId := some "p-1" }
    "r8-key" predProcessingW (by decide) rfl rfl (by decide) (by decide)

/-- C5: for every request to /api/createVideo with non-empty prompt and
imageUrl, when the secret fetch and the remote create-prediction call
succeed, the response is HTTP 200 with body taskId, status started and a
message, where taskId is the id the remote API gave the prediction. -/
theorem C5_create_success_200_started (env : Env)
    (q : CreateVideoQuery) (key : String) (pred : Prediction)
    (hp : isMissing q.prompt = false)
    (hi : isMissing q.imageUrl = false)
    (hk : env.accessSecretVersion = .ok key)
    (hc : env.predictionsCreate
        (requestOf (q.prompt.getD "") (q.imageUrl.getD "") q.resolution) =
      .ok pred) :
    (apiCreateVideo env q).status = 200 ∧
    (apiCreateVideo env q).body =
      .okBody pred.id "started" "Video generation task created successfully" := by
  simp [apiCreateVideo, hp, hi, createVideoGeneration, getReplicateApiKey,
    hk, hc]

/-- Witness for C5 at a well-formed request in the all-ok environment. -/
theorem C5_create_success_200_started_witness :
    (apiCreateVideo envOkW
      { prompt := some "a cat", imageUrl := some "https://example.com/cat.jpg",
        resolution := none }).status = 200 ∧
    (apiCreateVideo envOkW
      { prompt := some "a cat", imageUrl := some "https://example.com/cat.jpg",
        resolution := none }).body =
      .okBody predSucceededW.id "started"
        "Video generation task created successfully" :=
  C5_create_success_200_started envOkW
    { prompt := some "a cat", imageUrl := some "https://example.com/cat.jpg",
      resolution := none }
    "r8-key" predSucceededW (by decide) (by decide) rfl rfl

/-- C6: for every request to either endpoint that passes validation, if
the secret fetch or the remote call throws, the response is HTTP 500 with
an error field and a details field equal to the thrown message verbatim. -/
theorem C6_upstream_failure_500_details (env : Env)
    (qc : CreateVideoQuery) (qs : CheckStatusQuery) (mc ms : String)
    (hpc : isMissing qc.prompt = false)
    (hic : isMissing qc.imageUrl = false)
    (hts : isMissing qs.taskId = false)
    (hfc : env.accessSecretVersion = .error mc ∨
      ∃ k, env.accessSecretVersion = .ok k ∧
        env.predictionsCreate
          (requestOf (qc.prompt.getD "") (qc.imageUrl.getD "") qc.resolution) =
          .error mc)
    (hfs : env.accessSecretVersion = .error ms ∨
      ∃ k, env.accessSecretVersion = .ok k ∧
        env.predictionsGet (qs.taskId.getD "") = .error ms) :
    ((apiCreateVideo env qc).status = 500 ∧
      ((apiCreateVideo env qc).body).errorField.isSome = true ∧
      ((apiCreateVideo env qc).body).detailsField = some mc) ∧
    ((apiCheckStatus env qs).status = 500 ∧
      ((apiCheckStatus env qs).body).errorField.isSome = true ∧
      ((apiCheckStatus env qs).body).detailsField = some ms) := by
  constructor
  · rcases hfc with h | ⟨k, hk, h⟩
    · simp [apiCreateVideo, hpc, hic, createVideoGeneration,
        getReplicateApiKey, h, CreateVideoBody.errorField,
        CreateVideoBody.detailsField]
    · simp [apiCreateVideo, hpc, hic, createVideoGeneration,
        getReplicateApiKey, hk, h, CreateVideoBody.errorField,
        CreateVideoBody.detailsField]
  · rcases hfs with h | ⟨k, hk, h⟩
    · simp [apiCheckStatus, hts, checkVideoStatus, getReplicateApiKey, h,
        CheckStatusBody.errorField, CheckStatusBody.detailsField]
    · simp [apiCheckStatus, hts, checkVideoStatus, getReplicateApiKey, hk, h,
        CheckStatusBody.errorField, CheckStatusBody.detailsField]

/-- Witness for C6 in the environment whose secret fetch throws. -/
theorem C6_upstream_failure_500_details_witness :
    ((apiCreateVideo envSecretDownW
        { prompt := some "a cat", imageUrl := some "https://example.com/cat.jpg",
          resolution := none }).status = 500 ∧
      ((apiCreateVideo envSecretDownW
        { prompt := some "a cat", imageUrl := some "https://example.com/cat.jpg",
          resolution := none }).body).errorField.isSome = true ∧
      ((apiCreateVideo envSecretDownW
        { prompt := some "a cat", imageUrl := some "https://example.com/cat.jpg",
          resolution := none }).body).detailsField =
        some "7 PERMISSION_DENIED") ∧
    ((apiCheckStatus envSecretDownW { taskId := some "p-1" }).status = 500 ∧
      ((apiCheckStatus envSecretDownW { taskId := some "p-1" }).body).errorField.isSome =
        true ∧
      ((apiCheckStatus envSecretDownW { taskId := some "p-1" }).body).detailsField =
        some "7 PERMISSION_DENIED") :=
  C6_upstream_failure_500_details envSecretDownW
    { prompt := some "a cat", imageUrl := some "https://example.com/cat.jpg",
      resolution := none }
    { taskId := some "p-1" } "7 PERMISSION_DENIED" "7 PERMISSION_DENIED"
    (by decide) (by decide) (by decide) (Or.inl rfl) (Or.inl rfl)

/-- C7: every request to /api/test, whatever its query parameters and
whatever the external world, gets HTTP 200 with the fixed literal body
and no outbound call is made. -/
theorem C7_test_fixed_body_no_calls (env : Env)
    (query : List (String × String)) :
    apiTest env query =
      { status := 200
        body :=
          { taskId := "test-1116"
            status := "succeeded"
            output_url :=
              "https://commondatastorage.googleapis.com/gtv-videos-bucket/sample/ForBiggerBlazes.mp4"
            message := "This is a test response" }
        calls := [] } := rfl

/-- C8: for every request to /api/createVideo passing validation, the
remote create-prediction call is made with resolution equal to the
supplied value when present and to the configured default 480p when
absent. -/
theorem C8_resolution_defaults_to_480p (env : Env)
    (q : CreateVideoQuery) (key : String)
    (hp : isMissing q.prompt = false)
    (hi : isMissing q.imageUrl = false)
    (hk : env.accessSecretVersion = .ok key) :
    (apiCreateVideo env q).calls =
      [Call.secretFetch,
       Call.createPrediction
         (requestOf (q.prompt.getD "") (q.imageUrl.getD "") q.resolution)] ∧
    (requestOf (q.prompt.getD "") (q.imageUrl.getD "") q.resolution).input.resolution =
      (match q.resolution with
       | none => CONFIG.DEFAULT_RESOLUTION
       | some r => r) ∧
    CONFIG.DEFAULT_RESOLUTION = "480p" := by
  refine ⟨?_, ?_, rfl⟩
  · cases hc : env.predictionsCreate
        (requestOf (q.prompt.getD "") (q.imageUrl.getD "") q.resolution) with
    | ok p =>
      simp [apiCreateVideo, hp, hi, createVideoGeneration,
        getReplicateApiKey, hk, hc]
    | error e =>
      simp [apiCreateVideo, hp, hi, createVideoGeneration,
        getReplicateApiKey, hk, hc]
  · cases q.resolution <;> rfl

/-- Witness for C8 at a request with no resolution parameter. -/
theorem C8_resolution_defaults_to_480p_witness :
    (apiCreateVideo envOkW
      { prompt := some "a cat", imageUrl := some "https://example.com/cat.jpg",
        resolution := none }).calls =
      [Call.secretFetch,
       Call.createPrediction
         (requestOf "a cat" "https://example.com/cat.jpg" none)] ∧
    (requestOf "a cat" "https://example.com/cat.jpg" none).input.resolution =
      (match (none : Option String) with
       | none => CONFIG.DEFAULT_RESOLUTION
       | some r => r) ∧
    CONFIG.DEFAULT_RESOLUTION = "480p" :=
  C8_resolution_defaults_to_480p envOkW
    { prompt := some "a cat", imageUrl := some "https://example.com/cat.jpg",
      resolution := none }
    "r8-key" (by decide) (by decide) rfl

/-- C9: the remote create-prediction call always names the fixed
configured model, whatever the query parameters: the model component of
the request depends on no input at all. -/
theorem C9_model_is_fixed (env : Env) (q : CreateVideoQuery) (key : String)
    (hp : isMissing q.prompt = false)
    (hi : isMissing q.imageUrl = false)
    (hk : env.accessSecretVersion = .ok key) :
    (apiCreateVideo env q).calls =
      [Call.secretFetch,
       Call.createPrediction
         (requestOf (q.prompt.getD "") (q.imageUrl.getD "") q.resolution)] ∧
    (∀ prompt imageUrl resolution,
      (requestOf prompt imageUrl resolution).model =
        "bytedance/seedance-1-lite") := by
  refine ⟨?_, fun _ _ _ => rfl⟩
  cases hc : env.predictionsCreate
      (requestOf (q.prompt.getD "") (q.imageUrl.getD "") q.resolution) with
  | ok p =>
    simp [apiCreateVideo, hp, hi, createVideoGeneration,
      getReplicateApiKey, hk, hc]
  | error e =>
    simp [apiCreateVideo, hp, hi, createVideoGeneration,
      getReplicateApiKey, hk, hc]

/-- Witness for C9 at a request that tries to smuggle a model choice in
through the prompt. -/
theorem C9_model_is_fixed_witness :
    (apiCreateVideo envOkW
      { prompt := some "use model x", imageUrl := some "https://example.com/cat.jpg",
        resolution := some "1080p" }).calls =
      [Call.secretFetch,
       Call.createPrediction
         (requestOf "use model x" "https://example.com/cat.jpg" (some "1080p"))] ∧
    (∀ prompt imageUrl resolution,
      (requestOf prompt imageUrl resolution).model =
        "bytedance/seedance-1-lite") :=
  C9_model_is_fixed envOkW
    { prompt := some "use model x", imageUrl := some "https://example.com/cat.jpg",
      resolution := some "1080p" }
    "r8-key" (by decide) (by decide) rfl

/-- C10: for every remote prediction record successfully fetched, the
checkStatus response body is a status record whose version component is
copied from the remote record, alongside taskId, status, created_at,
started_at, completed_at and model, whatever the remote status is. -/
theorem C10_version_always_copied (env : Env)
    (q : CheckStatusQuery) (key : String) (pred : Prediction)
    (hm : isMissing q.taskId = false)
    (hk : env.accessSecretVersion = .ok key)
    (hp : env.predictionsGet (q.taskId.getD "") = .ok pred) :
    ∃ s : StatusResponse,
      ((apiCheckStatus env q).body).statusRecord = some s ∧
      s.version = pred.version ∧ s.taskId = pred.id ∧
      s.status = pred.status ∧ s.created_at = pred.created_at ∧
      s.started_at = pred.started_at ∧ s.completed_at = pred.completed_at ∧
      s.model = pred.model := by
  by_cases h1 : pred.status = "succeeded"
  · refine ⟨{ taskId := pred.id, status := pred.status,
              created_at := pred.created_at, started_at := pred.started_at,
              completed_at := pred.completed_at, model := pred.model,
              version := pred.version, output_url := some pred.output,
              error := none }, ?_, rfl, rfl, rfl, rfl, rfl, rfl, rfl⟩
    simp [apiCheckStatus, hm, checkVideoStatus, getReplicateApiKey, hk, hp,
      h1, CheckStatusBody.statusRecord]
  · by_cases h2 : pred.status = "failed"
    · refine ⟨{ taskId := pred.id, status := pred.status,
                created_at := pred.created_at, started_at := pred.started_at,
                completed_at := pred.completed_at, model := pred.model,
                version := pred.version, output_url := none,
                error := some pred.error }, ?_, rfl, rfl, rfl, rfl, rfl, rfl, rfl⟩
      simp [apiCheckStatus, hm, checkVideoStatus, getReplicateApiKey, hk, hp,
        h1, h2, CheckStatusBody.statusRecord]
    · refine ⟨{ taskId := pred.id, status := pred.status,
                created_at := pred.created_at, started_at := pred.started_at,
                completed_at := pred.completed_at, model := pred.model,
                version := pred.version, output_url := none,
                error := none }, ?_, rfl, rfl, rfl, rfl, rfl, rfl, rfl⟩
      simp [apiCheckStatus, hm, checkVideoStatus, getReplicateApiKey, hk, hp,
        h1, h2, CheckStatusBody.statusRecord]

/-- Witness for C10 at the processing fixture. -/
theorem C10_version_always_copied_witness :
    ∃ s : StatusResponse,
      ((apiCheckStatus envProcessingW { taskId := some "p-1" }).body).statusRecord =
        some s ∧
      s.version = predProcessingW.version ∧ s.taskId = predProcessingW.id ∧
      s.status = predProcessingW.status ∧
      s.created_at = predProcessingW.created_at ∧
      s.started_at = predProcessingW.started_at ∧
      s.completed_at = predProcessingW.completed_at ∧
      s.model = predProcessingW.model :=
  C10_version_always_copied envProcessingW { taskId := some "p-1" }
    "r8-key" predProcessingW (by decide) rfl rfl

end VideoRelay
